import Mathlib

/-
  Verification of the ao Compute Unit dryRun pipeline
  (src/servers/cu/src/domain/dryRun.js), the SDK module-source loader
  (src/sdk/src/lib/readState/load-src.js) and the Messenger Unit domain
  wiring (src/servers/mu-legacy/src/domain/index.js), as a shallow
  embedding in Lean 4. Fallible asynchronous steps (hyper-async chains)
  become Except-valued functions composed with bind; JS records become
  structures; possibly-undefined JS values become Option.
-/

namespace Ao

/-- A name/value tag attached to a transaction or message. -/
structure Tag where
  name : String
  value : String
  deriving DecidableEq

/-- Tagged fields of a message payload, covering every key the dryRun
message constructor (dryRun.js lines 128 to 145) reads or overrides:
Id, Owner, From, Target, Timestamp, Block-Height (blockHeight), Cron,
Read-Only (readOnly), plus the caller data that is spread through
unchanged (Tags, Data). -/
structure MsgFields where
  Id : Option String
  Owner : Option String
  From : Option String
  Target : Option String
  Timestamp : Option Nat
  blockHeight : Option Nat
  Cron : Option Bool
  readOnly : Option Bool
  Tags : List Tag
  Data : Option String
  deriving DecidableEq

/-- Reference to a loaded executable module. A loaded module is a JS
object, hence truthy, so the JS falsiness check on ctx.module is
modelled as Option.isNone. -/
structure ModuleRef where
  moduleId : String
  deriving DecidableEq

/-- Evaluation output object, shaped as in the dryRun.js line 95 comment:
Memory, Error, Messages, Spawns, Output. -/
structure EvalOutput where
  Memory : Option (List Nat)
  Error : Option String
  Messages : List MsgFields
  Spawns : List MsgFields
  Output : Option String
  deriving DecidableEq

/-- The dryRun return value: the evaluation output without the Memory key. -/
structure DryRunResult where
  Error : Option String
  Messages : List MsgFields
  Spawns : List MsgFields
  Output : Option String
  deriving DecidableEq

/-- Ramda omit of the Memory key from the output object (dryRun.js line 160). -/
def omitMemory (o : EvalOutput) : DryRunResult :=
  { Error := o.Error, Messages := o.Messages, Spawns := o.Spawns, Output := o.Output }

/-- The Process entry of the AoGlobal object attached to the synthetic
message (dryRun.js lines 146 to 148). -/
structure AoGlobalProcess where
  Id : String
  Owner : Option String
  Tags : List Tag
  deriving DecidableEq

/-- The AoGlobal object attached to the synthetic message. -/
structure AoGlobal where
  Process : AoGlobalProcess
  deriving DecidableEq

/-- An element of the message stream the evaluator consumes, shaped as the
object yielded by the dryRunMessage generator (dryRun.js lines 119 to 149):
noSave, deepHash, cron, ordinate, name, message, AoGlobal. -/
structure EvalMessage where
  noSave : Bool
  deepHash : Option String
  cron : Option String
  ordinate : Option String
  name : String
  message : MsgFields
  AoGlobal : Ao.AoGlobal
  deriving DecidableEq

/-- Error taxonomy of the spec, section 7. -/
inductive DomainError where
  | validationError (msg : String)
  | configurationError (msg : String)
  | upstreamUnavailable (msg : String)
  deriving DecidableEq

/-- A checkpoint record key, identifying one persisted snapshot. -/
structure Checkpoint where
  processId : String
  ordinate : String
  deriving DecidableEq

/-- Result of readState as consumed by dryRun: the fields dryRun.js reads
from readStateRes (module, ordinate, from, fromBlockHeight, owner, tags,
id, output). readState.js is not under src/; the shape is taken from its
use sites in dryRun.js and the spec contract of section 4.5. The field
named from in the source is fromTimestamp here. -/
structure ReadStateResult where
  id : Option String
  module : Option ModuleRef
  ordinate : Option String
  fromTimestamp : Option Nat
  fromBlockHeight : Option Nat
  owner : Option String
  tags : List Tag
  output : EvalOutput
  deriving DecidableEq

/-- Shape of the value flowing out of the first dryRun pipeline stage:
either the loadMessageMeta result carrying processId, timestamp and nonce
(spec section 6, findMessageMeta) or the literal Resolved object with
processId, to and ordinate, all but processId undefined; the source field
named to is toPoint here since to is reserved in Lean
(dryRun.js lines 62 to 66). Keys absent on one branch are undefined,
hence none. -/
structure MessageMeta where
  processId : Option String
  toPoint : Option Nat
  ordinate : Option String
  timestamp : Option Nat
  nonce : Option Nat
  deriving DecidableEq

/-- The argument object dryRun passes to readState (dryRun.js lines 72 to 89). -/
structure ReadStateArgs where
  processId : Option String
  toPoint : Option Nat
  ordinate : Option String
  cron : Option String
  exact : Bool
  deriving DecidableEq

/-- The argument object passed to evaluate (dryRun.js line 156): the whole
readState context spread together with the message stream, modelled as the
context plus the list of messages the stream emits. -/
structure EvalArgs where
  ctx : ReadStateResult
  messages : List EvalMessage
  deriving DecidableEq

/-- Result of an evaluate call. Modelled from the spec: evaluate.js is not
under src/. Its output field is the evaluation output consumed by dryRun
(dryRun.js line 159); saves is the explicit log of checkpoint writes the
evaluate call performs, made visible so that frame conditions about
checkpoint persistence are statable. -/
structure EvalResult where
  output : EvalOutput
  saves : List Checkpoint
  deriving DecidableEq

/-- The collaborators dryRunWith closes over (dryRun.js lines 44 to 47).
Modelled from the spec: loadMessageMeta.js, readState.js, loadModule.js and
evaluate.js are not under src/, so they enter as injected operations with
the interfaces of spec sections 4.5 and 6, and theorems quantify over them. -/
structure DryRunEnv where
  loadMessageMeta : String → String → Except DomainError MessageMeta
  readState : ReadStateArgs → Except DomainError ReadStateResult
  loadModule : ReadStateResult → Except DomainError ReadStateResult
  evaluate : EvalArgs → Except DomainError EvalResult

/-- The argument object of a dryRun call (dryRun.js line 49). -/
structure DryRunArgs where
  processId : String
  messageTxId : Option String
  dryRun : MsgFields
  deriving DecidableEq

/-- JS template-literal coercion of a possibly-undefined number to a
string: a defined number prints in decimal, undefined prints as the
nine-character string undefined. -/
def templateNat : Option Nat → String
  | some n => toString n
  | none => "undefined"

/-- First pipeline stage of dryRun (dryRun.js lines 50 to 67): with a
messageTxId, load its metadata; otherwise resolve the literal object with
to and ordinate undefined. -/
def resolveTarget (env : DryRunEnv) (processId : String)
    (messageTxId : Option String) : Except DomainError MessageMeta :=
  match messageTxId with
  | some mid => env.loadMessageMeta processId mid
  | none =>
    .ok { processId := some processId, toPoint := none, ordinate := none
          timestamp := none, nonce := none }

/-- The argument object dryRun builds for readState (dryRun.js lines 72 to
89): processId from the stage result, to from its timestamp, ordinate the
template string of its nonce, cron undefined, exact true. -/
def mkReadStateArgs (res : MessageMeta) : ReadStateArgs :=
  { processId := res.processId
    toPoint := res.timestamp
    ordinate := some (templateNat res.nonce)
    cron := none
    exact := true }

/-- The module reuse step (dryRun.js lines 99 to 116): if ctx.module is not
set, load the module; otherwise resolve the context unchanged. -/
def resolveModule (loadModule : ReadStateResult → Except DomainError ReadStateResult)
    (ctx : ReadStateResult) : Except DomainError ReadStateResult :=
  if ctx.module.isNone then loadModule ctx else .ok ctx

/-- The synthetic dry-run message (dryRun.js lines 119 to 149): spread the
caller payload into the message, then override Id, Owner and From to
undefined, Target to the process id, Timestamp and Block-Height to the
evaluated point of the readState result, Cron to false and Read-Only to
true; the outer object is flagged noSave with the ordinate of the
readState result. -/
def mkDryRunMessage (processId : String) (readStateRes : ReadStateResult)
    (payload : MsgFields) : EvalMessage :=
  { noSave := true
    deepHash := none
    cron := none
    ordinate := readStateRes.ordinate
    name := "Dry Run Message"
    message :=
      { payload with
        Id := none
        Owner := none
        From := none
        Target := some processId
        Timestamp := readStateRes.fromTimestamp
        blockHeight := readStateRes.fromBlockHeight
        Cron := some false
        readOnly := some true }
    AoGlobal :=
      { Process :=
        { Id := processId, Owner := readStateRes.owner, Tags := readStateRes.tags } } }

/-- The dryRunMessageSchema extension (dryRun.js lines 12 to 26): Id, Owner
and From of the inner message must be undefined, otherwise parsing fails.
The base messageSchema lives in model.js, which is not under src/; only the
extension checks are modelled. -/
def dryRunMessageSchemaParse (m : EvalMessage) : Except DomainError EvalMessage :=
  if m.message.Id = none ∧ m.message.Owner = none ∧ m.message.From = none
  then .ok m
  else .error (.validationError "dry-run message may not set Id, Owner or From")

/-- The dryRun pipeline up to and including construction of the evaluator
call (dryRun.js lines 49 to 156): resolve the target point, read state up
to it, resolve the module, then build and validate the single synthetic
message. The message is built from readStateRes, while the evaluator is
seeded with the possibly module-augmented ctx, exactly as in the source. -/
def dryRunEvalArgs (env : DryRunEnv) (args : DryRunArgs) : Except DomainError EvalArgs :=
  (resolveTarget env args.processId args.messageTxId).bind fun res =>
  (env.readState (mkReadStateArgs res)).bind fun readStateRes =>
  (resolveModule env.loadModule readStateRes).bind fun ctx =>
  (dryRunMessageSchemaParse (mkDryRunMessage args.processId readStateRes args.dryRun)).map fun m =>
  { ctx := ctx, messages := [m] }

/-- The full dryRun operation (dryRun.js lines 49 to 161): run the
evaluator on the single-message stream, project the output and omit Memory. -/
def dryRun (env : DryRunEnv) (args : DryRunArgs) : Except DomainError DryRunResult :=
  ((dryRunEvalArgs env args).bind env.evaluate).map fun res => omitMemory res.output

/-- Modelled from the spec: evaluate.js is not under src/. Spec section 4.4
requires that messages flagged noSave are folded for output but must not be
persisted as part of any checkpoint; an evaluator satisfying this contract
performs no checkpoint write on a call in which every folded message is
flagged noSave. -/
def EvaluatorRespectsNoSave (evaluate : EvalArgs → Except DomainError EvalResult) : Prop :=
  ∀ a r, evaluate a = .ok r → (∀ m ∈ a.messages, m.noSave = true) → r.saves = []

/-- Owner entry of the transaction metadata (load-src.js lines 6 to 8). -/
structure TransactionOwner where
  address : String
  deriving DecidableEq

/-- Transaction metadata as validated by transactionSchema (load-src.js
lines 5 to 13). In this typed embedding the zod shape check holds by
construction. -/
structure TransactionMeta where
  owner : TransactionOwner
  tags : List Tag
  deriving DecidableEq

/-- Ramda fold of the tag list into a name-to-value record (load-src.js
line 74): reduce left-to-right, each tag associating its name to its value,
so a later tag overwrites an earlier tag with the same name. -/
def tagsRecord (tags : List Tag) : String → Option String :=
  tags.foldl (fun a t => fun k => if k = t.name then some t.value else a k)
    (fun _ => none)

/-- The Contract-Src validation z.string().min(1) (load-src.js lines 76 to
79): an absent entry and the empty string both fail. The spec files this
failure as ConfigurationError, its missing required tag case. -/
def parseContractSrc (v : Option String) : Except DomainError String :=
  match v with
  | none => .error (.configurationError "Contract-Src tag was not present on the transaction")
  | some s =>
    if 1 ≤ s.length then .ok s
    else .error (.configurationError "Contract-Src tag was not present on the transaction")

/-- The applySpec result of getContractMetaWith: srcId and owner. -/
structure ContractMeta where
  srcId : String
  owner : String
  deriving DecidableEq

/-- A fetch response whose arrayBuffer yields the raw bytes. -/
structure HttpResponse where
  body : List Nat
  deriving DecidableEq

/-- Response.arrayBuffer (load-src.js line 54), yielding the raw bytes. -/
def HttpResponse.arrayBuffer (r : HttpResponse) : Except DomainError (List Nat) :=
  .ok r.body

/-- The collaborators loadSourceWith closes over (load-src.js lines 38 to
41): the content-store gateways of spec section 6. -/
structure LoadSrcEnv where
  loadTransactionMeta : String → Except DomainError TransactionMeta
  loadTransactionData : String → Except DomainError HttpResponse

/-- getContractMetaWith (load-src.js lines 66 to 85): load and parse the
transaction metadata, fold the tags into a record, extract and validate the
Contract-Src entry, and pair the result with the owner address. -/
def getContractMeta (env : LoadSrcEnv) (id : String) : Except DomainError ContractMeta :=
  (env.loadTransactionMeta id).bind fun meta =>
  (parseContractSrc (tagsRecord meta.tags "Contract-Src")).map fun srcId =>
  { srcId := srcId, owner := meta.owner.address }

/-- getSourceBufferWith (load-src.js lines 51 to 56): fetch the transaction
data for the source id and take its array buffer. -/
def getSourceBuffer (env : LoadSrcEnv) (srcId : String) : Except DomainError (List Nat) :=
  (env.loadTransactionData srcId).bind HttpResponse.arrayBuffer

/-- The context record flowing through loadSource: id is the contract id,
src and owner are the two fields the step adds or overwrites, and rest
stands for every other field of the open JS record, which the step never
touches. -/
structure SrcCtx where
  id : String
  src : Option (List Nat)
  owner : Option String
  rest : List (String × String)
  deriving DecidableEq

/-- srcSchema.parse (load-src.js lines 22 to 27): owner must be a string
and src must be defined (an ArrayBuffer object is always truthy), while
passthrough keeps every other field of the object unchanged. -/
def srcSchemaParse (c : SrcCtx) : Except DomainError SrcCtx :=
  match c.owner with
  | none => .error (.validationError "owner must be a string")
  | some _ =>
    match c.src with
    | none => .error (.validationError "contract source must be defined")
    | some _ => .ok c

/-- loadSourceWith (load-src.js lines 102 to 117): resolve the contract
metadata from ctx.id, fetch the source buffer for the resolved srcId,
spread src and owner onto ctx, and parse the result with srcSchema. -/
def loadSource (env : LoadSrcEnv) (ctx : SrcCtx) : Except DomainError SrcCtx :=
  (getContractMeta env ctx.id).bind fun meta =>
  (getSourceBuffer env meta.srcId).bind fun src =>
  srcSchemaParse { ctx with src := some src, owner := some meta.owner }

/-- Follows the claim wording, for comparison with tagsRecord: the value of
the last tag in the list bearing the given name, or none when no tag does. -/
def lastTagValueSpec (k : String) : List Tag → Option String
  | [] => none
  | t :: ts =>
    match lastTagValueSpec k ts with
    | some v => some v
    | none => if t.name = k then some t.value else none

/-- Wiring facts of the Messenger Unit domain module
(src/servers/mu-legacy/src/domain/index.js): which names the module
exports, and which named operations are passed to crankMsgsWith. The
With-constructors themselves live in lib/main.js, which is not under src/. -/
structure MuDomainWiring where
  exports : List String
  crankMsgsDeps : List String
  deriving DecidableEq

/-- Content of mu-legacy src/domain/index.js: export const initMsgs,
const processMsg, const processSpawn (both module-private), and
export const crankMsgs built by crankMsgsWith from processMsg, processSpawn
and the logger. -/
def muDomain : MuDomainWiring :=
  { exports := ["initMsgs", "crankMsgs"]
    crankMsgsDeps := ["processMsg", "processSpawn", "logger"] }

/-! Concrete sample values, used by counterexamples and by the witnesses
that instantiate the quantified theorems. -/

/-- A sample evaluation output carrying a memory image. -/
def sampleOutput : EvalOutput :=
  { Memory := some [1, 2, 3], Error := none, Messages := [], Spawns := []
    Output := some "pong" }

/-- A sample evaluate result that performs no checkpoint write. -/
def sampleEvalResult : EvalResult :=
  { output := sampleOutput, saves := [] }

/-- A sample readState result with a module already attached. -/
def sampleReadState : ReadStateResult :=
  { id := some "msg-1", module := some { moduleId := "mod-1" }
    ordinate := some "8", fromTimestamp := some 1000, fromBlockHeight := some 42
    owner := some "proc-owner", tags := [], output := sampleOutput }

/-- A sample dryRun environment in which every collaborator succeeds. -/
def sampleEnv : DryRunEnv :=
  { loadMessageMeta := fun pid _ =>
      .ok { processId := some pid, toPoint := none, ordinate := none
            timestamp := some 1000, nonce := some 8 }
    readState := fun _ => .ok sampleReadState
    loadModule := fun ctx => .ok { ctx with module := some { moduleId := "mod-1" } }
    evaluate := fun _ => .ok sampleEvalResult }

/-- A sample caller payload carrying no identity fields. -/
def samplePayload : MsgFields :=
  { Id := none, Owner := none, From := none, Target := none, Timestamp := none
    blockHeight := none, Cron := none, readOnly := none
    Tags := [{ name := "Action", value := "Ping" }], Data := some "ping" }

/-- A sample dryRun argument object without a messageTxId. -/
def sampleArgs : DryRunArgs :=
  { processId := "proc-1", messageTxId := none, dryRun := samplePayload }

/-! Helper lemmas shared by the claim theorems. -/

/-- The synthetic message always passes the dry-run schema, because its
Id, Owner and From have been overridden to undefined. -/
theorem dryRunMessageSchemaParse_mk (pid : String) (rs : ReadStateResult)
    (payload : MsgFields) :
    dryRunMessageSchemaParse (mkDryRunMessage pid rs payload)
      = .ok (mkDryRunMessage pid rs payload) := by
  simp [dryRunMessageSchemaParse, mkDryRunMessage]

/-- Inversion of a successful dryRunEvalArgs run into its pipeline stages. -/
theorem dryRunEvalArgs_ok_inv (env : DryRunEnv) (args : DryRunArgs) (a : EvalArgs)
    (h : dryRunEvalArgs env args = .ok a) :
    ∃ meta rs ctx,
      resolveTarget env args.processId args.messageTxId = .ok meta
      ∧ env.readState (mkReadStateArgs meta) = .ok rs
      ∧ resolveModule env.loadModule rs = .ok ctx
      ∧ a = { ctx := ctx, messages := [mkDryRunMessage args.processId rs args.dryRun] } := by
  unfold dryRunEvalArgs at h
  cases h₁ : resolveTarget env args.processId args.messageTxId with
  | error e => rw [h₁] at h; simp [Except.bind] at h
  | ok meta =>
    rw [h₁] at h; simp only [Except.bind] at h
    cases h₂ : env.readState (mkReadStateArgs meta) with
    | error e => rw [h₂] at h; simp at h
    | ok rs =>
      rw [h₂] at h; simp only at h
      cases h₃ : resolveModule env.loadModule rs with
      | error e => rw [h₃] at h; simp at h
      | ok ctx =>
        rw [h₃] at h; simp only at h
        rw [dryRunMessageSchemaParse_mk] at h
        simp only [Except.map] at h
        injection h with h₄
        exact ⟨meta, rs, ctx, rfl, h₂, h₃, h₄.symm⟩

/-- A message whose inner Id is set, as a schema-rejection probe. -/
def sampleForgedMessage : EvalMessage :=
  { noSave := false, deepHash := none, cron := none, ordinate := none
    name := "Forged Message"
    message := { samplePayload with Id := some "evil-id" }
    AoGlobal := { Process := { Id := "proc-1", Owner := none, Tags := [] } } }

/-- Claim C1 counterexample: a dryRun invocation whose caller payload sets
Id, Owner and From succeeds with the evaluation output instead of failing
with a validation error, because dryRun overrides those fields to undefined
before the schema check. -/
theorem c1_counterexample :
    dryRun sampleEnv
      { processId := "proc-1", messageTxId := none
        dryRun := { samplePayload with
                      Id := some "forged-id", Owner := some "forged-owner"
                      From := some "forged-from" } }
      = .ok { Error := none, Messages := [], Spawns := [], Output := some "pong" } := by
  rfl

/-- Claim C1 (amended): the synthetic message schema does reject any
message whose Id, Owner or From is set, but dryRun overrides the caller
supplied Id, Owner and From to undefined before the schema check, so the
constructed synthetic message always passes and the payload is never
rejected for carrying those fields. -/
theorem c1_identity_masked_not_rejected :
    (∀ m : EvalMessage,
      (m.message.Id ≠ none ∨ m.message.Owner ≠ none ∨ m.message.From ≠ none) →
      dryRunMessageSchemaParse m
        = .error (.validationError "dry-run message may not set Id, Owner or From"))
    ∧ (∀ (pid : String) (rs : ReadStateResult) (payload : MsgFields),
        dryRunMessageSchemaParse (mkDryRunMessage pid rs payload)
          = .ok (mkDryRunMessage pid rs payload)) := by
  refine ⟨?_, fun pid rs payload => dryRunMessageSchemaParse_mk pid rs payload⟩
  intro m h
  have hne : ¬ (m.message.Id = none ∧ m.message.Owner = none ∧ m.message.From = none) := by
    rcases h with h | h | h <;> intro hc <;> exact h (by tauto)
  unfold dryRunMessageSchemaParse
  rw [if_neg hne]

/-- Witness for the amended claim C1 at concrete inputs. -/
theorem c1_identity_masked_not_rejected_witness :
    dryRunMessageSchemaParse sampleForgedMessage
      = .error (.validationError "dry-run message may not set Id, Owner or From")
    ∧ dryRunMessageSchemaParse (mkDryRunMessage "proc-1" sampleReadState samplePayload)
        = .ok (mkDryRunMessage "proc-1" sampleReadState samplePayload) :=
  ⟨c1_identity_masked_not_rejected.1 sampleForgedMessage (Or.inl (by decide)),
   c1_identity_masked_not_rejected.2 "proc-1" sampleReadState samplePayload⟩

/-- Claim C2: whenever the dryRun pipeline reaches evaluation, exactly one
synthetic message is constructed from the caller payload, with Id, Owner
and From undefined, Target the process id, Timestamp and Block-Height the
evaluated point returned by readState, Cron false and Read-Only true, and
the evaluator runs on the single-element sequence holding only this
message, seeded with the context from the preceding readState call. -/
theorem c2_single_synthetic_message (env : DryRunEnv) (args : DryRunArgs)
    (meta : MessageMeta) (rs ctx : ReadStateResult)
    (h₁ : resolveTarget env args.processId args.messageTxId = .ok meta)
    (h₂ : env.readState (mkReadStateArgs meta) = .ok rs)
    (h₃ : resolveModule env.loadModule rs = .ok ctx) :
    dryRunEvalArgs env args
        = .ok { ctx := ctx, messages := [mkDryRunMessage args.processId rs args.dryRun] }
    ∧ dryRun env args
        = (env.evaluate
            { ctx := ctx, messages := [mkDryRunMessage args.processId rs args.dryRun] }).map
          (fun r => omitMemory r.output)
    ∧ (mkDryRunMessage args.processId rs args.dryRun).message.Id = none
    ∧ (mkDryRunMessage args.processId rs args.dryRun).message.Owner = none
    ∧ (mkDryRunMessage args.processId rs args.dryRun).message.From = none
    ∧ (mkDryRunMessage args.processId rs args.dryRun).message.Target = some args.processId
    ∧ (mkDryRunMessage args.processId rs args.dryRun).message.Timestamp = rs.fromTimestamp
    ∧ (mkDryRunMessage args.processId rs args.dryRun).message.blockHeight = rs.fromBlockHeight
    ∧ (mkDryRunMessage args.processId rs args.dryRun).message.Cron = some false
    ∧ (mkDryRunMessage args.processId rs args.dryRun).message.readOnly = some true := by
  have hargs : dryRunEvalArgs env args
      = .ok { ctx := ctx, messages := [mkDryRunMessage args.processId rs args.dryRun] } := by
    unfold dryRunEvalArgs
    rw [h₁]
    simp only [Except.bind]
    rw [h₂]
    simp only
    rw [h₃]
    simp only
    rw [dryRunMessageSchemaParse_mk]
    rfl
  refine ⟨hargs, ?_, rfl, rfl, rfl, rfl, rfl, rfl, rfl, rfl⟩
  unfold dryRun
  rw [hargs]
  rfl

/-- Witness for claim C2 at the sample environment and arguments. -/
theorem c2_single_synthetic_message_witness :
    dryRunEvalArgs sampleEnv sampleArgs
        = .ok { ctx := sampleReadState
                messages := [mkDryRunMessage "proc-1" sampleReadState samplePayload] }
    ∧ (mkDryRunMessage "proc-1" sampleReadState samplePayload).message.Target = some "proc-1" := by
  have h := c2_single_synthetic_message sampleEnv sampleArgs
    { processId := some "proc-1", toPoint := none, ordinate := none
      timestamp := none, nonce := none }
    sampleReadState sampleReadState rfl rfl rfl
  exact ⟨h.1, h.2.2.2.2.2.1⟩

/-- Claim C3: the dryRun return value is the evaluation output with the
Memory field stripped, and the single synthetic message is flagged noSave,
so an evaluator satisfying the spec noSave contract writes no checkpoint
during the dry-run evaluation. -/
theorem c3_output_stripped_no_checkpoint (env : DryRunEnv) (args : DryRunArgs)
    (hns : EvaluatorRespectsNoSave env.evaluate) :
    (∀ a, dryRunEvalArgs env args = .ok a → ∀ m ∈ a.messages, m.noSave = true)
    ∧ (∀ a r, dryRunEvalArgs env args = .ok a → env.evaluate a = .ok r →
        dryRun env args = .ok (omitMemory r.output) ∧ r.saves = []) := by
  have hno : ∀ a, dryRunEvalArgs env args = .ok a → ∀ m ∈ a.messages, m.noSave = true := by
    intro a h m hm
    obtain ⟨meta, rs, ctx, _, _, _, ha⟩ := dryRunEvalArgs_ok_inv env args a h
    subst ha
    simp only [List.mem_singleton] at hm
    subst hm
    rfl
  refine ⟨hno, ?_⟩
  intro a r h hr
  constructor
  · unfold dryRun
    rw [h]
    simp only [Except.bind]
    rw [hr]
    rfl
  · exact hns a r hr (hno a h)

/-- Witness for claim C3 at the sample environment and arguments. -/
theorem c3_output_stripped_no_checkpoint_witness :
    dryRun sampleEnv sampleArgs = .ok (omitMemory sampleEvalResult.output)
    ∧ sampleEvalResult.saves = [] := by
  have hns : EvaluatorRespectsNoSave sampleEnv.evaluate := by
    intro a r h _
    injection h with h'
    rw [← h']
    rfl
  exact (c3_output_stripped_no_checkpoint sampleEnv sampleArgs hns).2
    { ctx := sampleReadState
      messages := [mkDryRunMessage "proc-1" sampleReadState samplePayload] }
    sampleEvalResult rfl rfl

/-- Claim C4, evaluated at the failing input: with messageTxId present the
readState call carries the resolved timestamp and the nonce rendered as a
string with exact true; but with messageTxId absent, although the first
stage resolves the literal object with ordinate undefined, the readState
call carries ordinate equal to the nine-character string undefined,
produced by template-coercing the undefined nonce, rather than an absent
ordinate. -/
theorem c4_ordinate_coerced_to_string_undefined :
    (resolveTarget sampleEnv "proc-1" none
        = .ok { processId := some "proc-1", toPoint := none, ordinate := none
                timestamp := none, nonce := none }
      ∧ mkReadStateArgs
          { processId := some "proc-1", toPoint := none, ordinate := none
            timestamp := none, nonce := none }
          = { processId := some "proc-1", toPoint := none
              ordinate := some "undefined", cron := none, exact := true })
    ∧ mkReadStateArgs
        { processId := some "proc-1", toPoint := none, ordinate := none
          timestamp := some 1000, nonce := some 8 }
        = { processId := some "proc-1", toPoint := some 1000
            ordinate := some "8", cron := none, exact := true } :=
  ⟨⟨rfl, rfl⟩, rfl⟩

/-- Claim C5: the module loader is invoked exactly when the readState
result lacks an attached module: with a module attached, the reuse step
returns the context unchanged no matter what the loader does; without one,
the step is exactly the loader call; and whole dryRun calls are
independent of the loader whenever readState always attaches a module. -/
theorem c5_module_loader_exactly_when_missing
    (lm lm' : ReadStateResult → Except DomainError ReadStateResult)
    (ctx : ReadStateResult) (env : DryRunEnv) (args : DryRunArgs) :
    (ctx.module.isSome = true → resolveModule lm ctx = .ok ctx)
    ∧ (ctx.module = none → resolveModule lm ctx = lm ctx)
    ∧ ((∀ a rs, env.readState a = .ok rs → rs.module.isSome = true) →
        dryRun { env with loadModule := lm } args
          = dryRun { env with loadModule := lm' } args) := by
  refine ⟨?_, ?_, ?_⟩
  · intro h
    cases hm : ctx.module with
    | none => rw [hm] at h; simp at h
    | some m => unfold resolveModule; rw [hm]; rfl
  · intro h
    unfold resolveModule
    rw [h]
    rfl
  · intro h
    have hrs : ∀ l, ({ env with loadModule := l } : DryRunEnv).readState = env.readState :=
      fun _ => rfl
    unfold dryRun dryRunEvalArgs
    have hrt : ∀ l, resolveTarget { env with loadModule := l } args.processId args.messageTxId
        = resolveTarget env args.processId args.messageTxId := fun _ => rfl
    rw [hrt lm, hrt lm', hrs lm, hrs lm']
    cases h₁ : resolveTarget env args.processId args.messageTxId with
    | error e => rfl
    | ok meta =>
      simp only [Except.bind]
      cases h₂ : env.readState (mkReadStateArgs meta) with
      | error e => rfl
      | ok rs =>
        have hmod : resolveModule lm rs = resolveModule lm' rs := by
          have hs := h (mkReadStateArgs meta) rs h₂
          cases hm : rs.module with
          | none => rw [hm] at hs; simp at hs
          | some m => unfold resolveModule; rw [hm]; rfl
        simp only
        rw [hmod]

/-- A sample module loader that attaches a module. -/
def sampleLoaderA : ReadStateResult → Except DomainError ReadStateResult :=
  fun ctx => .ok { ctx with module := some { moduleId := "mod-A" } }

/-- A sample module loader that fails, to exhibit non-invocation. -/
def sampleLoaderB : ReadStateResult → Except DomainError ReadStateResult :=
  fun _ => .error (.upstreamUnavailable "gateway down")

/-- Witness for claim C5 at concrete loaders, environment and arguments. -/
theorem c5_module_loader_exactly_when_missing_witness :
    resolveModule sampleLoaderA sampleReadState = .ok sampleReadState
    ∧ dryRun { sampleEnv with loadModule := sampleLoaderA } sampleArgs
        = dryRun { sampleEnv with loadModule := sampleLoaderB } sampleArgs := by
  have h := c5_module_loader_exactly_when_missing sampleLoaderA sampleLoaderB
    sampleReadState sampleEnv sampleArgs
  refine ⟨h.1 rfl, h.2.2 ?_⟩
  intro a rs hr
  injection hr with h'
  rw [← h']
  rfl

/-- The Ramda tag fold with an arbitrary accumulator: its lookup yields the
value of the last matching tag, falling back to the accumulator. -/
theorem tagsRecord_foldl (tags : List Tag) (a : String → Option String) (k : String) :
    tags.foldl (fun a t => fun k => if k = t.name then some t.value else a k) a k
      = match lastTagValueSpec k tags with
        | some v => some v
        | none => a k := by
  induction tags generalizing a with
  | nil => rfl
  | cons t ts ih =>
    simp only [List.foldl_cons, lastTagValueSpec]
    rw [ih]
    cases hl : lastTagValueSpec k ts with
    | some v => rfl
    | none =>
      by_cases hk : k = t.name
      · have hk' : t.name = k := hk.symm
        simp only [if_pos hk, if_pos hk']
      · have hk' : ¬ t.name = k := fun hcontra => hk hcontra.symm
        simp only [if_neg hk, if_neg hk']

/-- The folded tag record looks up exactly the last tag with a given name. -/
theorem tagsRecord_eq_lastTagValueSpec (tags : List Tag) (k : String) :
    tagsRecord tags k = lastTagValueSpec k tags := by
  unfold tagsRecord
  rw [tagsRecord_foldl]
  cases lastTagValueSpec k tags <;> rfl

/-- A nonempty string satisfies the zod min-1 length bound. -/
theorem one_le_length_of_ne_empty (s : String) (h : s ≠ "") : 1 ≤ s.length := by
  cases s with
  | mk data =>
    cases data with
    | nil => exact absurd rfl h
    | cons c cs =>
      show 1 ≤ (c :: cs).length
      exact Nat.succ_le_succ (Nat.zero_le cs.length)

/-- Claim C6: the source loader resolves owner and tags from the store and
extracts the Contract-Src tag; if that tag is absent or empty the load
fails with a ConfigurationError and no executable bytes are fetched (the
outcome is independent of the data gateway); otherwise getContractMeta
resolves exactly that source id and loadSource proceeds to fetch its bytes. -/
theorem c6_contract_src_required (env env' : LoadSrcEnv) (ctx : SrcCtx)
    (meta : TransactionMeta)
    (hm : env.loadTransactionMeta ctx.id = .ok meta)
    (hsame : env'.loadTransactionMeta = env.loadTransactionMeta) :
    ((tagsRecord meta.tags "Contract-Src" = none
        ∨ tagsRecord meta.tags "Contract-Src" = some "") →
      loadSource env ctx
          = .error (.configurationError "Contract-Src tag was not present on the transaction")
      ∧ loadSource env ctx = loadSource env' ctx)
    ∧ (∀ s, tagsRecord meta.tags "Contract-Src" = some s → s ≠ "" →
        getContractMeta env ctx.id = .ok { srcId := s, owner := meta.owner.address }
        ∧ loadSource env ctx
            = (getSourceBuffer env s).bind fun src =>
                srcSchemaParse { ctx with src := some src, owner := some meta.owner.address }) := by
  constructor
  · intro h
    have hp : parseContractSrc (tagsRecord meta.tags "Contract-Src")
        = .error (.configurationError "Contract-Src tag was not present on the transaction") := by
      rcases h with h | h <;> rw [h] <;> rfl
    have hg : ∀ e : LoadSrcEnv, e.loadTransactionMeta ctx.id = .ok meta →
        getContractMeta e ctx.id
          = .error (.configurationError "Contract-Src tag was not present on the transaction") := by
      intro e he
      unfold getContractMeta
      rw [he]
      simp only [Except.bind]
      rw [hp]
      rfl
    have he' : env'.loadTransactionMeta ctx.id = .ok meta := by rw [hsame]; exact hm
    refine ⟨?_, ?_⟩
    · unfold loadSource
      rw [hg env hm]
      rfl
    · unfold loadSource
      rw [hg env hm, hg env' he']
      rfl
  · intro s hs hne
    have hp : parseContractSrc (tagsRecord meta.tags "Contract-Src") = .ok s := by
      rw [hs]
      unfold parseContractSrc
      simp only
      rw [if_pos (one_le_length_of_ne_empty s hne)]
    have hg : getContractMeta env ctx.id = .ok { srcId := s, owner := meta.owner.address } := by
      unfold getContractMeta
      rw [hm]
      simp only [Except.bind]
      rw [hp]
      rfl
    refine ⟨hg, ?_⟩
    unfold loadSource
    rw [hg]
    rfl

/-- Transaction metadata without a Contract-Src tag. -/
def sampleTxMetaNoTag : TransactionMeta :=
  { owner := { address := "owner-addr" }
    tags := [{ name := "App-Name", value := "SmartWeave" }] }

/-- A load-src environment whose metadata carries no Contract-Src tag. -/
def sampleLoadSrcEnv : LoadSrcEnv :=
  { loadTransactionMeta := fun _ => .ok sampleTxMetaNoTag
    loadTransactionData := fun _ => .ok { body := [0, 97] } }

/-- A sample loadSource context carrying an unrelated extra field. -/
def sampleCtx : SrcCtx :=
  { id := "contract-1", src := none, owner := none
    rest := [("state", "initial")] }

/-- Witness for claim C6: with the Contract-Src tag absent, loadSource
fails with the ConfigurationError. -/
theorem c6_contract_src_required_witness :
    loadSource sampleLoadSrcEnv sampleCtx
      = .error (.configurationError "Contract-Src tag was not present on the transaction") :=
  ((c6_contract_src_required sampleLoadSrcEnv sampleLoadSrcEnv sampleCtx
      sampleTxMetaNoTag rfl rfl).1 (Or.inl (by decide))).1

/-- Claim C9: a successful loadSource returns the input context with only
src and owner added or overwritten, both defined; every other field of the
context passes through unchanged. -/
theorem c9_passthrough (env : LoadSrcEnv) (ctx r : SrcCtx)
    (h : loadSource env ctx = .ok r) :
    r = { ctx with src := r.src, owner := r.owner }
    ∧ r.src.isSome = true ∧ r.owner.isSome = true := by
  unfold loadSource at h
  cases h₁ : getContractMeta env ctx.id with
  | error e => rw [h₁] at h; simp [Except.bind] at h
  | ok meta =>
    rw [h₁] at h
    simp only [Except.bind] at h
    cases h₂ : getSourceBuffer env meta.srcId with
    | error e => rw [h₂] at h; simp at h
    | ok src =>
      rw [h₂] at h
      simp only at h
      unfold srcSchemaParse at h
      simp only at h
      injection h with h'
      subst h'
      exact ⟨rfl, rfl, rfl⟩

/-- Transaction metadata with a single Contract-Src tag. -/
def sampleTxMeta : TransactionMeta :=
  { owner := { address := "owner-addr" }
    tags := [{ name := "Contract-Src", value := "src-1" }] }

/-- A load-src environment in which every gateway call succeeds. -/
def sampleLoadSrcEnvOk : LoadSrcEnv :=
  { loadTransactionMeta := fun _ => .ok sampleTxMeta
    loadTransactionData := fun _ => .ok { body := [0, 97] } }

/-- Witness for claim C9 at a concrete successful load. -/
theorem c9_passthrough_witness :
    ({ sampleCtx with src := some [0, 97], owner := some "owner-addr" } : SrcCtx)
        = { sampleCtx with
              src := ({ sampleCtx with src := some [0, 97], owner := some "owner-addr" } : SrcCtx).src
              owner := ({ sampleCtx with src := some [0, 97], owner := some "owner-addr" } : SrcCtx).owner }
    ∧ ({ sampleCtx with src := some [0, 97], owner := some "owner-addr" } : SrcCtx).src.isSome = true
    ∧ ({ sampleCtx with src := some [0, 97], owner := some "owner-addr" } : SrcCtx).owner.isSome = true :=
  c9_passthrough sampleLoadSrcEnvOk sampleCtx
    { sampleCtx with src := some [0, 97], owner := some "owner-addr" } rfl

/-- Claim C10: the tag list is folded left-to-right into a name-to-value
record in which a later tag overwrites an earlier one, so lookup returns
the value of the last tag with the given name; in particular the last
Contract-Src tag determines the module id getContractMeta resolves. -/
theorem c10_last_tag_wins (tags : List Tag) (k : String)
    (env : LoadSrcEnv) (id : String) (meta : TransactionMeta) (v : String)
    (hm : env.loadTransactionMeta id = .ok meta)
    (hv : lastTagValueSpec "Contract-Src" meta.tags = some v)
    (hne : v ≠ "") :
    tagsRecord tags k = lastTagValueSpec k tags
    ∧ getContractMeta env id = .ok { srcId := v, owner := meta.owner.address } := by
  refine ⟨tagsRecord_eq_lastTagValueSpec tags k, ?_⟩
  unfold getContractMeta
  rw [hm]
  simp only [Except.bind]
  rw [tagsRecord_eq_lastTagValueSpec, hv]
  unfold parseContractSrc
  simp only
  rw [if_pos (one_le_length_of_ne_empty v hne)]
  rfl

/-- A tag list with two Contract-Src tags. -/
def sampleDupTags : List Tag :=
  [{ name := "Contract-Src", value := "src-first" },
   { name := "Contract-Src", value := "src-last" }]

/-- Transaction metadata carrying duplicate Contract-Src tags. -/
def sampleTxMetaDup : TransactionMeta :=
  { owner := { address := "owner-addr" }, tags := sampleDupTags }

/-- A load-src environment returning the duplicate-tag metadata. -/
def sampleLoadSrcEnvDup : LoadSrcEnv :=
  { loadTransactionMeta := fun _ => .ok sampleTxMetaDup
    loadTransactionData := fun _ => .ok { body := [] } }

/-- Witness for claim C10: with two Contract-Src tags the later value wins. -/
theorem c10_last_tag_wins_witness :
    tagsRecord sampleDupTags "Contract-Src" = lastTagValueSpec "Contract-Src" sampleDupTags
    ∧ getContractMeta sampleLoadSrcEnvDup "contract-1"
        = .ok { srcId := "src-last", owner := "owner-addr" } :=
  c10_last_tag_wins sampleDupTags "Contract-Src" sampleLoadSrcEnvDup "contract-1"
    sampleTxMetaDup "src-last" rfl rfl (by decide)

/-- Claim C7 counterexample: the Messenger Unit domain module does not
export the two per-effect operations; neither processMsg nor processSpawn
is in its export list. -/
theorem c7_counterexample :
    ¬ ("processMsg" ∈ muDomain.exports ∧ "processSpawn" ∈ muDomain.exports) := by
  decide

/-- Claim C7 (amended): the Messenger Unit domain module exposes crankMsgs
(and initMsgs), and crankMsgs is constructed by wrapping exactly the two
per-effect operations processMsg and processSpawn together with the
logger; the two per-effect operations themselves are module-private and
not exposed. -/
theorem c7_crank_wiring :
    muDomain.exports = ["initMsgs", "crankMsgs"]
    ∧ muDomain.crankMsgsDeps = ["processMsg", "processSpawn", "logger"]
    ∧ "crankMsgs" ∈ muDomain.exports
    ∧ ¬ "processMsg" ∈ muDomain.exports
    ∧ ¬ "processSpawn" ∈ muDomain.exports := by
  decide

/-- Claim C8: the dryRun result is independent of any Id, Owner or From
values in the caller payload: two calls whose payloads agree after masking
those three fields produce identical results, because the fields are
unconditionally overridden to undefined in the synthetic message before
evaluation. -/
theorem c8_identity_independent (env : DryRunEnv) (pid : String)
    (mid : Option String) (p q : MsgFields)
    (h : ({ p with Id := none, Owner := none, From := none } : MsgFields)
        = { q with Id := none, Owner := none, From := none }) :
    dryRun env { processId := pid, messageTxId := mid, dryRun := p }
      = dryRun env { processId := pid, messageTxId := mid, dryRun := q } := by
  have hmsg : ∀ rs : ReadStateResult,
      mkDryRunMessage pid rs p = mkDryRunMessage pid rs q := by
    intro rs
    cases p with
    | mk pId pOwner pFrom pTarget pTs pBh pCron pRo pTags pData =>
      cases q with
      | mk qId qOwner qFrom qTarget qTs qBh qCron qRo qTags qData =>
        simp only [MsgFields.mk.injEq, true_and, and_true] at h
        obtain ⟨hT, hTs, hBh, hCron, hRo, hTags, hData⟩ := h
        subst hT hTs hBh hCron hRo hTags hData
        rfl
  have hargs : dryRunEvalArgs env { processId := pid, messageTxId := mid, dryRun := p }
      = dryRunEvalArgs env { processId := pid, messageTxId := mid, dryRun := q } := by
    unfold dryRunEvalArgs
    simp only [hmsg]
  unfold dryRun
  rw [hargs]

/-- Witness for claim C8: a payload with spoofed Id, Owner and From gives
the same dryRun result as the clean payload. -/
theorem c8_identity_independent_witness :
    dryRun sampleEnv
      { processId := "proc-1", messageTxId := none
        dryRun := { samplePayload with
                      Id := some "spoof-id", Owner := some "spoof-owner"
                      From := some "spoof-from" } }
      = dryRun sampleEnv
          { processId := "proc-1", messageTxId := none, dryRun := samplePayload } :=
  c8_identity_independent sampleEnv "proc-1" none
    { samplePayload with
        Id := some "spoof-id", Owner := some "spoof-owner", From := some "spoof-from" }
    samplePayload (by decide)

end Ao
